import Mathlib

/-!
Verification of the homura-cards API gateway (src/api/main.py, src/api/security.py).

The Python handlers are embedded shallowly: the document-store client
(api.mango), the upstream HTTP client (requests), the Scryfall adapter
(api.magic) and the per-game filter translators (api.filters) are external
collaborators of the code under verification, so they appear as function
parameters; the routing, registry, guard and pagination logic is translated
from the source line by line.  Python exceptions become an explicit error
type: `HTTPException(status, detail)` raised by the handlers, `RuntimeError`
for the unguarded configuration checks, `KeyError` for a failed dict lookup
(`GAME_CONFIG[game]`), and `ZeroDivisionError` for `total / limit` with
`limit == 0` inside `math.ceil`.  Python dict/None truthiness is modelled on
`Option Doc` with a document being an association list (empty list = falsy
empty dict).
-/

namespace HomuraCards

/-- A card document: an opaque JSON object, modelled as an association list. -/
abbrev Doc := List (String × String)

/-- Generic HTTP query parameters (`request.query_params`). -/
abbrev Params := List (String × String)

/-- An opaque backend filter predicate produced by a translator. -/
abbrev Pred := List (String × String)

/-- The ways a handler can terminate abnormally. -/
inductive PyError where
  | httpException (status : Nat) (detail : String)
  | runtimeError (msg : String)
  | keyError (key : String)
  | zeroDivisionError
deriving DecidableEq

deriving instance DecidableEq for Except

/-- Python truthiness of an optional document: `None` and `{}` are falsy. -/
def pyTruthy : Option Doc → Bool
  | none => false
  | some d => !d.isEmpty

/-- Keep a lookup result only when it is truthy (models `if c:` / `if card:`). -/
def pyKeep (o : Option Doc) : Option Doc :=
  if pyTruthy o then o else none

/-! ## src/api/security.py -/

/-- `str.startswith`, expressed on the character lists of the strings. -/
def pyStartsWith (s pre : String) : Bool :=
  pre.toList.isPrefixOf s.toList

/-- One fuel-indexed pass of `str.replace`: scan left to right, on a match of
`pat` emit `rep` and skip past the matched segment, otherwise copy one
character.  The fuel only serves structural termination; `replaceList`
supplies enough of it. -/
def replaceFuel (pat rep : List Char) : Nat → List Char → List Char
  | 0, l => l
  | _ + 1, [] => []
  | fuel + 1, c :: rest =>
    if !pat.isEmpty && pat.isPrefixOf (c :: rest) then
      rep ++ replaceFuel pat rep fuel ((c :: rest).drop pat.length)
    else
      c :: replaceFuel pat rep fuel rest

/-- Python `s.replace(pat, rep)` for a non-empty pattern: replace every
non-overlapping occurrence, scanning left to right. -/
def replaceList (pat rep l : List Char) : List Char :=
  replaceFuel pat rep l.length l

/-- Python `str.strip()`: drop leading and trailing whitespace. -/
def stripChars (l : List Char) : List Char :=
  ((l.dropWhile Char.isWhitespace).reverse.dropWhile Char.isWhitespace).reverse

/-- The token the guard compares against the secret:
`auth.replace("Bearer ", "").strip()` (security.py line 19). -/
def extract_token (auth : String) : String :=
  ⟨stripChars (replaceList "Bearer ".toList [] auth.toList)⟩

/-- `api_key_guard` (security.py lines 10-24).  `API_KEY = ""` models an
unconfigured secret (`os.getenv` returned a falsy value); the header is
`none` when the request carries no Authorization header. -/
def api_key_guard (API_KEY : String) (auth : Option String) : Except PyError Unit :=
  if API_KEY = "" then .error (.runtimeError "API_KEY não configurada")
  else
    match auth with
    | none => .error (.httpException 401 "Token ausente")
    | some a =>
      if a == "" || !pyStartsWith a "Bearer " then
        .error (.httpException 401 "Token ausente")
      else if extract_token a ≠ API_KEY then
        .error (.httpException 403 "Token inválido")
      else
        .ok ()

/-! ## src/api/main.py: registry -/

/-- `GAME_SRC["apitcg"]` (main.py line 32). -/
def GAME_SRC_apitcg : List String := ["digimon", "pokemon", "dragon-ball-fusion"]

/-- `GAME_SRC["mahou"]` (main.py lines 33-37). -/
def GAME_SRC_mahou : List String :=
  ["sorcery", "one-piece", "riftbound", "star-wars", "fab", "yugioh",
   "magic", "gundam", "union-arena"]

/-- `has_game` (main.py lines 51-52): membership in either backend's list. -/
def has_game (game : String) : Bool :=
  GAME_SRC_apitcg.contains game || GAME_SRC_mahou.contains game

/-- `has_game_mahou` (main.py lines 54-55). -/
def has_game_mahou (game : String) : Bool :=
  GAME_SRC_mahou.contains game

/-- The `"collection"` field of `GAME_CONFIG[game]` (main.py lines 40-49);
`none` models the `KeyError` for a game with no entry (notably `"magic"`). -/
def GAME_CONFIG_collection : String → Option String
  | "sorcery" => some "sorcery"
  | "one-piece" => some "one-piece"
  | "riftbound" => some "riftbound"
  | "fab" => some "fab"
  | "yugioh" => some "yugioh"
  | "star-wars" => some "star-wars"
  | "gundam" => some "gundam"
  | "union-arena" => some "union-arena"
  | _ => none

/-- The document-store client (api.mango), an external collaborator. -/
structure Mango where
  contar_docs : String → Pred → Int
  buscar_docs : String → Pred → Int → Int → List Doc
  buscar_por_id : String → String → Option Doc
  buscar_por_nome : String → String → Option Doc
  random_doc : String → Option Doc

/-! ## src/api/main.py: helpers -/

/-- `get_apitcg_cards` (main.py lines 57-72).  The `RuntimeError` for a
missing `APITCG_API_KEY` is raised before the `try` block, so it is not
translated to a 502; upstream failures (the collaborator's error text) are. -/
def get_apitcg_cards (APITCG_API_KEY : String)
    (upstream : String → Params → Except String String)
    (game : String) (params : Params) : Except PyError String :=
  if APITCG_API_KEY = "" then .error (.runtimeError "APITCG_API_KEY não configurada")
  else
    match upstream game params with
    | .ok body => .ok body
    | .error e => .error (.httpException 502 e)

/-- The `{page, limit, total, totalPages, data}` envelope (main.py 74-81). -/
structure Page where
  page : Int
  limit : Int
  total : Int
  totalPages : Int
  data : List Doc
deriving DecidableEq

/-- `math.ceil(total / limit)` (main.py line 79): exact ceiling of the
rational quotient; `limit = 0` raises `ZeroDivisionError`. -/
def math_ceil_div (total limit : Int) : Except PyError Int :=
  if limit = 0 then .error .zeroDivisionError
  else .ok ⌈(total : ℚ) / (limit : ℚ)⌉

/-- `paginated_response` (main.py lines 74-81). -/
def paginated_response (data : List Doc) (page limit total : Int) :
    Except PyError Page :=
  match math_ceil_div total limit with
  | .error e => .error e
  | .ok tp =>
    .ok { page := page, limit := limit, total := total, totalPages := tp, data := data }

/-- `get_mtg_cards` (main.py lines 87-114) restricted to the limit/page
arguments the router passes; `fetch_mtg_cards` is the Scryfall collaborator,
whose `HTTPError` text is wrapped into a 502. -/
def get_mtg_cards (fetch_mtg_cards : Int → Int → Except String String)
    (limit page : Int) : Except PyError String :=
  match fetch_mtg_cards limit page with
  | .ok body => .ok body
  | .error e => .error (.httpException 502 ("Falha ao consultar Scryfall: " ++ e))

/-! ## src/api/main.py: route handlers -/

/-- Result of `GET /api/{game}/cards` (main.py lines 116-128). -/
inductive GetCardsResp where
  | proxied (body : String)
  | magic (body : String)
  | page (p : Page)
deriving DecidableEq

/-- `get_cards` (main.py lines 116-128). -/
def get_cards (APITCG_API_KEY : String)
    (upstream : String → Params → Except String String)
    (fetch_mtg_cards : Int → Int → Except String String)
    (m : Mango) (filter_fn : String → Params → Pred)
    (game : String) (params : Params) (limit page : Int) :
    Except PyError GetCardsResp :=
  if !has_game game then .error (.httpException 404 "Jogo não encontrado")
  else if !has_game_mahou game then
    (get_apitcg_cards APITCG_API_KEY upstream game params).map .proxied
  else if game = "magic" then
    (get_mtg_cards fetch_mtg_cards limit page).map .magic
  else
    match GAME_CONFIG_collection game with
    | none => .error (.keyError game)
    | some collection =>
      let query := filter_fn game params
      let total := m.contar_docs collection query
      let data := m.buscar_docs collection query page limit
      (paginated_response data page limit total).map .page

/-- The request body of the bulk route: either `ids` is a list of strings or
it is absent/not a list. -/
inductive BodyIds where
  | notList
  | list (ids : List String)
deriving DecidableEq

/-- The `{count, data}` object returned by the bulk route. -/
structure BulkResp where
  count : Nat
  data : List Doc
deriving DecidableEq

/-- `get_cards_bulk` (main.py lines 130-143). -/
def get_cards_bulk (m : Mango) (game : String) (body : BodyIds) :
    Except PyError BulkResp :=
  if !has_game_mahou game then .error (.httpException 404 "Jogo não habilitado")
  else
    match body with
    | .notList => .error (.httpException 400 "Envie um JSON com lista \x27ids\x27")
    | .list ids =>
      match GAME_CONFIG_collection game with
      | none => .error (.keyError game)
      | some collection =>
        let result := ids.map (m.buscar_por_id collection)
        let result := result.filterMap pyKeep
        .ok { count := result.length, data := result }

/-- The `{data}` object of the random route; `data` is `null` when the
sampling came back empty. -/
structure RandomResp where
  data : Option Doc
deriving DecidableEq

/-- `get_random_card` (main.py lines 145-150). -/
def get_random_card (m : Mango) (game : String) : Except PyError RandomResp :=
  if !has_game_mahou game then .error (.httpException 404 "Jogo não habilitado")
  else
    match GAME_CONFIG_collection game with
    | none => .error (.keyError game)
    | some collection => .ok { data := m.random_doc collection }

/-- The `{data}` object of the lookup and by-id routes. -/
structure DataResp where
  data : Doc
deriving DecidableEq

/-- `get_card_by_id_or_name` (main.py lines 152-167). -/
def get_card_by_id_or_name (m : Mango) (game q : String) :
    Except PyError DataResp :=
  if !has_game game then .error (.httpException 404 "Jogo não encontrado")
  else if !has_game_mahou game then .error (.httpException 404 "Jogo não habilitado")
  else
    match GAME_CONFIG_collection game with
    | none => .error (.keyError game)
    | some collection =>
      match pyKeep (m.buscar_por_nome collection q) with
      | some card => .ok { data := card }
      | none =>
        match pyKeep (m.buscar_por_id collection q) with
        | some card => .ok { data := card }
        | none => .error (.httpException 404 "Card não encontrado")

/-- `get_card_by_id` (main.py lines 169-178). -/
def get_card_by_id (m : Mango) (game card_id : String) :
    Except PyError DataResp :=
  if !has_game game then .error (.httpException 404 "Jogo não encontrado")
  else if !has_game_mahou game then .error (.httpException 404 "Jogo não habilitado")
  else
    match GAME_CONFIG_collection game with
    | none => .error (.keyError game)
    | some collection =>
      match pyKeep (m.buscar_por_id collection card_id) with
      | some card => .ok { data := card }
      | none => .error (.httpException 404 "Card não encontrado")

/-! ## Concrete collaborators used to exercise the handlers -/

/-- A store on which every lookup misses and every count is zero. -/
def mango0 : Mango :=
  { contar_docs := fun _ _ => 0
    buscar_docs := fun _ _ _ _ => []
    buscar_por_id := fun _ _ => none
    buscar_por_nome := fun _ _ => none
    random_doc := fun _ => none }

/-- An upstream client that always answers. -/
def upstream0 : String → Params → Except String String := fun _ _ => .ok "{}"

/-- A Scryfall adapter that always answers. -/
def mtg0 : Int → Int → Except String String := fun _ _ => .ok "{}"

/-- A translator table producing the empty predicate. -/
def filter0 : String → Params → Pred := fun _ _ => []

/-- A sample card document. -/
def docA : Doc := [("id", "a")]

/-- Another sample card document. -/
def docB : Doc := [("id", "b")]

/-- A small populated store: `yugioh` holds `docA` under id `"a"` and `docB`
under id `"b"`; `sorcery` resolves the name `"Avacyn"` to `docA`. -/
def sampleMango : Mango :=
  { contar_docs := fun _ _ => 2
    buscar_docs := fun _ _ _ _ => [docA, docB]
    buscar_por_id := fun c id =>
      if c = "yugioh" ∧ id = "a" then some docA
      else if c = "yugioh" ∧ id = "b" then some docB
      else none
    buscar_por_nome := fun c nm =>
      if c = "sorcery" ∧ nm = "Avacyn" then some docA else none
    random_doc := fun _ => none }

/-- `true` exactly when the outcome is an HTTP 502 error. -/
def status502 (r : Except PyError String) : Bool :=
  match r with
  | .error (.httpException s _) => s == 502
  | _ => false

/-! ## Helper lemmas -/

/-- Every internal game is one of the nine entries of `GAME_SRC["mahou"]`. -/
lemma mahou_cases (g : String) (hg : has_game_mahou g = true) :
    g = "sorcery" ∨ g = "one-piece" ∨ g = "riftbound" ∨ g = "star-wars" ∨
    g = "fab" ∨ g = "yugioh" ∨ g = "magic" ∨ g = "gundam" ∨ g = "union-arena" := by
  have hmem : g ∈ GAME_SRC_mahou := by
    simpa [has_game_mahou] using hg
  simpa [GAME_SRC_mahou] using hmem

/-- Internal games are known games. -/
lemma mahou_imp_has_game (g : String) (hg : has_game_mahou g = true) :
    has_game g = true := by
  simp [has_game, has_game_mahou] at hg ⊢
  exact Or.inr hg

/-- Every internal game other than `magic` has a `GAME_CONFIG` entry, and its
collection is named after the game itself. -/
lemma GAME_CONFIG_collection_eq (g : String) (hg : has_game_mahou g = true)
    (hm : g ≠ "magic") : GAME_CONFIG_collection g = some g := by
  rcases mahou_cases g hg with h | h | h | h | h | h | h | h | h
  all_goals first
    | (subst h; rfl)
    | exact absurd h hm

/-- A truthiness-filtered value comes from the underlying lookup. -/
lemma pyKeep_eq_some {o : Option Doc} {d : Doc} (h : pyKeep o = some d) :
    o = some d := by
  unfold pyKeep at h
  split at h
  · exact h
  · exact absurd h (by simp)

/-- Every document surviving the bulk route's comprehension pipeline is the
result of one of the per-id lookups. -/
lemma bulk_data_mem (f : String → Option Doc) (ids : List String) (d : Doc)
    (hd : d ∈ (ids.map f).filterMap pyKeep) :
    ∃ id ∈ ids, f id = some d := by
  rw [List.mem_filterMap] at hd
  obtain ⟨o, ho, hko⟩ := hd
  rw [List.mem_map] at ho
  obtain ⟨id, hid, rfl⟩ := ho
  exact ⟨id, hid, pyKeep_eq_some hko⟩

/-- The bulk route's comprehension pipeline yields, in order, a subsequence
of the list of per-id hits taken in id-list order. -/
lemma bulk_data_sublist (f : String → Option Doc) (ids : List String) :
    ((ids.map f).filterMap pyKeep).Sublist (ids.filterMap f) := by
  induction ids with
  | nil => simp
  | cons id rest ih =>
    simp only [List.map_cons, List.filterMap_cons]
    cases hf : f id with
    | none => simpa [pyKeep, pyTruthy] using ih
    | some d =>
      by_cases hd : pyTruthy (some d)
      · simpa [pyKeep, hd] using ih.cons₂ d
      · simpa [pyKeep, hd] using ih.cons d

/-- The exact ceiling of a quotient of naturals is ceiling division:
`⌈a / b⌉ = (a + b - 1) / b` for `b ≥ 1`. -/
lemma ceil_natCast_div (a b : ℕ) (hb : 1 ≤ b) :
    ⌈(a : ℚ) / (b : ℚ)⌉ = (((a + b - 1) / b : ℕ) : ℤ) := by
  have hb0 : (0 : ℚ) < (b : ℚ) := by exact_mod_cast hb
  have hdm := Nat.div_add_mod (a + b - 1) b
  have hmod : (a + b - 1) % b < b := Nat.mod_lt _ (by omega)
  generalize hq : (a + b - 1) / b = q at hdm ⊢
  have h1 : a ≤ b * q := by omega
  have h2 : b * q < a + b := by omega
  have h1q : (a : ℚ) ≤ (b : ℚ) * (q : ℚ) := by exact_mod_cast h1
  have h2q : (b : ℚ) * (q : ℚ) < (a : ℚ) + (b : ℚ) := by exact_mod_cast h2
  have hle : ⌈(a : ℚ) / (b : ℚ)⌉ ≤ (q : ℤ) := by
    rw [Int.ceil_le]
    rw [div_le_iff₀ hb0]
    push_cast
    nlinarith
  have hlt : ((q : ℤ) - 1) < ⌈(a : ℚ) / (b : ℚ)⌉ := by
    rw [Int.lt_ceil, lt_div_iff₀ hb0]
    push_cast
    nlinarith
  omega

/-! ## Claim theorems -/

/-- C1: for every game identifier `g` outside both the external and the
internal game set, each route under `/api/{g}/...` (generic cards listing,
bulk, random, lookup, by-id) fails with HTTP 404. -/
theorem unknown_game_routes_404 (g : String) (hg : has_game g = false) :
    (∀ key upstream mtg m f params limit page,
        get_cards key upstream mtg m f g params limit page
          = .error (.httpException 404 "Jogo não encontrado")) ∧
    (∀ m body, get_cards_bulk m g body
          = .error (.httpException 404 "Jogo não habilitado")) ∧
    (∀ m, get_random_card m g
          = .error (.httpException 404 "Jogo não habilitado")) ∧
    (∀ m q, get_card_by_id_or_name m g q
          = .error (.httpException 404 "Jogo não encontrado")) ∧
    (∀ m cid, get_card_by_id m g cid
          = .error (.httpException 404 "Jogo não encontrado")) := by
  have hm : has_game_mahou g = false := by
    rcases hb : has_game_mahou g with _ | _
    · rfl
    · exact absurd (mahou_imp_has_game g hb) (by simp [hg])
  refine ⟨?_, ?_, ?_, ?_, ?_⟩ <;> intros <;>
    simp [get_cards, get_cards_bulk, get_random_card, get_card_by_id_or_name,
      get_card_by_id, hg, hm]

/-- C1 witness: the unknown game `"chess"` receives 404 on all five routes. -/
theorem unknown_game_routes_404_witness :
    get_cards "k" upstream0 mtg0 mango0 filter0 "chess" [] 25 1
      = .error (.httpException 404 "Jogo não encontrado") ∧
    get_cards_bulk mango0 "chess" (.list ["a"])
      = .error (.httpException 404 "Jogo não habilitado") ∧
    get_random_card mango0 "chess"
      = .error (.httpException 404 "Jogo não habilitado") ∧
    get_card_by_id_or_name mango0 "chess" "q"
      = .error (.httpException 404 "Jogo não encontrado") ∧
    get_card_by_id mango0 "chess" "c1"
      = .error (.httpException 404 "Jogo não encontrado") := by
  obtain ⟨h1, h2, h3, h4, h5⟩ := unknown_game_routes_404 "chess" (by decide)
  exact ⟨h1 _ _ _ _ _ _ _ _, h2 _ _, h3 _, h4 _ _, h5 _ _⟩

/-- C2 counterexample: `"magic"` is in the internal game set, yet the bulk
route raises a `KeyError` (`GAME_CONFIG["magic"]` is absent) instead of
returning a `{count, data}` object. -/
theorem get_cards_bulk_magic_keyerror :
    has_game_mahou "magic" = true ∧
    get_cards_bulk mango0 "magic" (.list ["a"]) = .error (.keyError "magic") := by decide

/-- C2 (amended to games with a `GAME_CONFIG` entry, i.e. every internal
game except `magic`): for every such game `g` and ids list `L`, the bulk
route looks each id up independently in `g`'s collection, drops misses
silently, and returns `{count, data}` with `count = len(data)` and every
returned record the result of a lookup of some id of `L`. -/
theorem get_cards_bulk_spec (m : Mango) (g : String) (ids : List String)
    (hg : has_game_mahou g = true) (hm : g ≠ "magic") :
    ∃ c, GAME_CONFIG_collection g = some c ∧
      ∃ r : BulkResp, get_cards_bulk m g (.list ids) = .ok r ∧
        r.count = r.data.length ∧
        ∀ d ∈ r.data, ∃ id ∈ ids, m.buscar_por_id c id = some d := by
  have hc := GAME_CONFIG_collection_eq g hg hm
  refine ⟨g, hc,
    ⟨((ids.map (m.buscar_por_id g)).filterMap pyKeep).length,
      (ids.map (m.buscar_por_id g)).filterMap pyKeep⟩, ?_, rfl, ?_⟩
  · simp [get_cards_bulk, hg, hc, List.filterMap_map]
  · intro d hd
    exact bulk_data_mem (m.buscar_por_id g) ids d hd

/-- C2 witness: the spec scenario
`POST /api/yugioh/cards/bulk {"ids": ["a", "missing", "b"]}` on a store
holding `a` and `b` yields `{count: 2, data: [docA, docB]}`. -/
theorem get_cards_bulk_spec_witness :
    has_game_mahou "yugioh" = true ∧
    get_cards_bulk sampleMango "yugioh" (.list ["a", "missing", "b"])
      = .ok { count := 2, data := [docA, docB] } := by
  obtain ⟨c, hc, r, hr, hcount, hmem⟩ :=
    get_cards_bulk_spec sampleMango "yugioh" ["a", "missing", "b"] (by decide) (by decide)
  refine ⟨by decide, ?_⟩
  have hval : get_cards_bulk sampleMango "yugioh" (.list ["a", "missing", "b"])
      = .ok { count := 2, data := [docA, docB] } := by decide
  exact hval

/-- C3: for every `page ≥ 1`, `limit ≥ 1`, item list and total, the
pagination assembler succeeds and returns an envelope whose `page`, `limit`,
`total` and `data` fields are the given arguments and whose `totalPages`
field is the exact ceiling of `total / limit` (equivalently, for a
non-negative total, ceiling division `(total + limit - 1) / limit`). -/
theorem paginated_response_spec (data : List Doc) (page limit total : Int)
    (hp : 1 ≤ page) (hl : 1 ≤ limit) :
    ∃ p : Page, paginated_response data page limit total = .ok p ∧
      p.page = page ∧ p.limit = limit ∧ p.total = total ∧ p.data = data ∧
      p.totalPages = ⌈(total : ℚ) / (limit : ℚ)⌉ ∧
      (0 ≤ total →
        p.totalPages = (((total.toNat + limit.toNat - 1) / limit.toNat : ℕ) : ℤ)) := by
  have hl0 : limit ≠ 0 := by omega
  refine ⟨{ page := page, limit := limit, total := total,
            totalPages := ⌈(total : ℚ) / (limit : ℚ)⌉, data := data },
    ?_, rfl, rfl, rfl, rfl, rfl, ?_⟩
  · simp [paginated_response, math_ceil_div, hl0]
  · intro htotal
    simp only
    have h1 : ((total.toNat : ℤ) : ℚ) = (total : ℚ) := by
      rw [Int.toNat_of_nonneg htotal]
    have h2 : ((limit.toNat : ℤ) : ℚ) = (limit : ℚ) := by
      rw [Int.toNat_of_nonneg (by omega)]
    have h3 := ceil_natCast_div total.toNat limit.toNat (by omega)
    push_cast at h1 h2
    rw [← h1, ← h2]
    exact h3

/-- C3 witness: 2 matching documents at page 1 with limit 25 give the
envelope `{page: 1, limit: 25, total: 2, totalPages: 1, data: []}`. -/
theorem paginated_response_spec_witness :
    paginated_response [] 1 25 2
      = .ok { page := 1, limit := 25, total := 2, totalPages := 1, data := [] } := by
  obtain ⟨p, hp, h1, h2, h3, h4, _, h6⟩ :=
    paginated_response_spec [] 1 25 2 (by norm_num) (by norm_num)
  have h7 := h6 (by norm_num)
  norm_num at h7
  cases p
  simp only at h1 h2 h3 h4 h7
  subst h1
  subst h2
  subst h3
  subst h4
  subst h7
  exact hp

/-- C4: with a secret configured, the guard rejects a missing header or a
header not using the Bearer scheme with 401, rejects a Bearer header whose
extracted token differs from the secret with 403, and admits a Bearer header
whose extracted token equals the secret. -/
theorem api_key_guard_branches (key : String) (hk : key ≠ "") :
    (api_key_guard key none = .error (.httpException 401 "Token ausente")) ∧
    (∀ a, pyStartsWith a "Bearer " = false →
        api_key_guard key (some a) = .error (.httpException 401 "Token ausente")) ∧
    (∀ a, pyStartsWith a "Bearer " = true → extract_token a ≠ key →
        api_key_guard key (some a) = .error (.httpException 403 "Token inválido")) ∧
    (∀ a, pyStartsWith a "Bearer " = true → extract_token a = key →
        api_key_guard key (some a) = .ok ()) := by
  refine ⟨by simp [api_key_guard, hk], ?_, ?_, ?_⟩
  · intro a ha
    simp [api_key_guard, hk, ha]
  · intro a ha hne
    have hAe : a ≠ "" := by
      intro h
      subst h
      exact absurd ha (by decide)
    simp [api_key_guard, hk, ha, hAe, hne]
  · intro a ha heq
    have hAe : a ≠ "" := by
      intro h
      subst h
      exact absurd ha (by decide)
    simp [api_key_guard, hk, ha, hAe, heq]

/-- C4 witness: with secret `"s3cret"`, no header gives 401, a Basic header
gives 401, a wrong Bearer token gives 403, the right token is admitted. -/
theorem api_key_guard_branches_witness :
    api_key_guard "s3cret" none = .error (.httpException 401 "Token ausente") ∧
    api_key_guard "s3cret" (some "Basic abc")
      = .error (.httpException 401 "Token ausente") ∧
    api_key_guard "s3cret" (some "Bearer nope")
      = .error (.httpException 403 "Token inválido") ∧
    api_key_guard "s3cret" (some "Bearer s3cret") = .ok () := by
  obtain ⟨h1, h2, h3, h4⟩ := api_key_guard_branches "s3cret" (by decide)
  exact ⟨h1, h2 _ (by decide), h3 _ (by decide) (by decide), h4 _ (by decide) (by decide)⟩

/-- C5 counterexample: with secret `"k"`, the header `"Bearer k "` carries a
token part (`"k "`, the text after the scheme) that is not character for
character equal to the secret, yet the guard admits the request, because it
compares `auth.replace("Bearer ", "").strip()` rather than the raw token. -/
theorem api_key_guard_admits_inexact_token :
    pyStartsWith "Bearer k " "Bearer " = true ∧
    "Bearer k ".toList.drop 7 ≠ "k".toList ∧
    api_key_guard "k" (some "Bearer k ") = .ok () := by decide

/-- C5 (amended): with a secret configured, a Bearer-scheme header is
admitted exactly when its normalized token — every occurrence of the text
`"Bearer "` deleted and surrounding whitespace stripped — equals the secret;
exact equality of the raw token part is neither necessary nor required. -/
theorem api_key_guard_admits_iff (key a : String) (hk : key ≠ "")
    (ha : pyStartsWith a "Bearer " = true) :
    api_key_guard key (some a) = .ok () ↔ extract_token a = key := by
  have hAe : a ≠ "" := by
    intro h
    subst h
    exact absurd ha (by decide)
  constructor
  · intro h
    by_contra hne
    simp [api_key_guard, hk, ha, hAe, hne] at h
  · intro h
    simp [api_key_guard, hk, ha, hAe, h]

/-- C5 witness: with secret `"k"` the exact header `"Bearer k"` is admitted. -/
theorem api_key_guard_admits_iff_witness :
    (api_key_guard "k" (some "Bearer k") = .ok () ↔ extract_token "Bearer k" = "k") ∧
    extract_token "Bearer k" = "k" :=
  ⟨api_key_guard_admits_iff "k" "Bearer k" (by decide) (by decide), by decide⟩

/-- C6 counterexample: `"magic"` is in the internal game set, yet the lookup
route raises a `KeyError` before attempting any lookup. -/
theorem lookup_magic_keyerror :
    has_game_mahou "magic" = true ∧
    get_card_by_id_or_name mango0 "magic" "Black Lotus"
      = .error (.keyError "magic") := by decide

/-- C6 (amended to internal games with a `GAME_CONFIG` entry, i.e. all but
`magic`): the lookup route first queries by name, on a miss falls back to a
query by id, wraps the first truthy hit as `{data: card}`, and fails with
404 `Card não encontrado` when neither lookup resolves. -/
theorem get_card_by_id_or_name_spec (m : Mango) (g q : String)
    (hg : has_game_mahou g = true) (hm : g ≠ "magic") :
    ∃ c, GAME_CONFIG_collection g = some c ∧
      (∀ card, pyKeep (m.buscar_por_nome c q) = some card →
          get_card_by_id_or_name m g q = .ok { data := card }) ∧
      (pyKeep (m.buscar_por_nome c q) = none →
        (∀ card, pyKeep (m.buscar_por_id c q) = some card →
            get_card_by_id_or_name m g q = .ok { data := card }) ∧
        (pyKeep (m.buscar_por_id c q) = none →
            get_card_by_id_or_name m g q
              = .error (.httpException 404 "Card não encontrado"))) := by
  have hc := GAME_CONFIG_collection_eq g hg hm
  have hh := mahou_imp_has_game g hg
  refine ⟨g, hc, ?_, ?_⟩
  · intro card hcard
    simp [get_card_by_id_or_name, hh, hg, hc, hcard]
  · intro hnone
    refine ⟨?_, ?_⟩
    · intro card hcard
      simp [get_card_by_id_or_name, hh, hg, hc, hnone, hcard]
    · intro hid
      simp [get_card_by_id_or_name, hh, hg, hc, hnone, hid]

/-- C6 witness: on `sorcery`, the query `"Avacyn"` resolves by name to
`docA` and is returned wrapped as `{data: docA}`. -/
theorem get_card_by_id_or_name_spec_witness :
    get_card_by_id_or_name sampleMango "sorcery" "Avacyn" = .ok { data := docA } := by
  obtain ⟨c, hc, hname, _⟩ :=
    get_card_by_id_or_name_spec sampleMango "sorcery" "Avacyn" (by decide) (by decide)
  have hcs : c = "sorcery" := by
    have h0 : GAME_CONFIG_collection "sorcery" = some "sorcery" := rfl
    rw [h0] at hc
    exact (Option.some.inj hc).symm
  subst hcs
  exact hname docA (by decide)

/-- C7 counterexample: with `APITCG_API_KEY` absent, the external-backend
helper fails with a `RuntimeError` raised before the `try` block, not with
an HTTP 502 response. -/
theorem apitcg_missing_key_not_502 :
    status502 (get_apitcg_cards "" upstream0 "digimon" []) = false ∧
    get_apitcg_cards "" upstream0 "digimon" []
      = .error (.runtimeError "APITCG_API_KEY não configurada") := by decide

/-- C7 (amended): a listing request for an external-backend game handled
while the upstream credential is absent fails with a `RuntimeError`
configuration error (surfacing as an internal server error), not an HTTP
502; the 502 translation applies only to upstream call failures. -/
theorem get_apitcg_cards_missing_key
    (upstream : String → Params → Except String String)
    (game : String) (params : Params) :
    get_apitcg_cards "" upstream game params
      = .error (.runtimeError "APITCG_API_KEY não configurada") := rfl

/-- C8 counterexample: `"magic"` is in the internal game set, yet the
random-card route raises a `KeyError` instead of sampling or returning 404. -/
theorem random_magic_keyerror :
    has_game_mahou "magic" = true ∧
    get_random_card mango0 "magic" = .error (.keyError "magic") := by decide

/-- C8 (amended to internal games with a `GAME_CONFIG` entry, i.e. all but
`magic`): the random route returns `{data: d}` where `d` is exactly what the
store sampling yields for the game's collection — a null/absent result is
passed through as `{data: null}` with no error — and a non-internal game is
rejected with 404. -/
theorem get_random_card_spec (m : Mango) (g : String) :
    (has_game_mahou g = false →
        get_random_card m g = .error (.httpException 404 "Jogo não habilitado")) ∧
    (has_game_mahou g = true → g ≠ "magic" →
        ∃ c, GAME_CONFIG_collection g = some c ∧
          get_random_card m g = .ok { data := m.random_doc c }) := by
  constructor
  · intro hg
    simp [get_random_card, hg]
  · intro hg hm
    have hc := GAME_CONFIG_collection_eq g hg hm
    exact ⟨g, hc, by simp [get_random_card, hg, hc]⟩

/-- C8 witness: the non-internal `"chess"` gets 404, while `one-piece` over
an empty collection yields `{data: null}` and no error. -/
theorem get_random_card_spec_witness :
    get_random_card mango0 "chess" = .error (.httpException 404 "Jogo não habilitado") ∧
    get_random_card mango0 "one-piece" = .ok { data := none } := by
  obtain ⟨h1, _⟩ := get_random_card_spec mango0 "chess"
  obtain ⟨_, h2⟩ := get_random_card_spec mango0 "one-piece"
  obtain ⟨c, hc, hr⟩ := h2 (by decide) (by decide)
  refine ⟨h1 (by decide), ?_⟩
  rw [hr]
  have : mango0.random_doc c = none := rfl
  rw [this]

/-- C9: whenever the bulk route answers `{count, data}` at all, the records
of `data` appear as an in-order subsequence of the per-id lookup hits taken
in id-list order — misses and falsy results are dropped, order preserved. -/
theorem get_cards_bulk_order (m : Mango) (g : String) (ids : List String)
    (r : BulkResp) (h : get_cards_bulk m g (.list ids) = .ok r) :
    ∃ c, GAME_CONFIG_collection g = some c ∧
      r.data.Sublist (ids.filterMap (m.buscar_por_id c)) := by
  by_cases hg : has_game_mahou g = true
  · cases hc : GAME_CONFIG_collection g with
    | none => simp [get_cards_bulk, hg, hc] at h
    | some c =>
      refine ⟨c, rfl, ?_⟩
      have hdata : r.data = ids.filterMap (pyKeep ∘ m.buscar_por_id c) := by
        simp [get_cards_bulk, hg, hc] at h
        rw [← h]
      rw [hdata, ← List.filterMap_map]
      exact bulk_data_sublist (m.buscar_por_id c) ids
  · simp [get_cards_bulk, hg] at h

/-- C9 witness: `["a", "missing", "b"]` on the sample store returns
`[docA, docB]`, an in-order subsequence of the ordered lookup hits. -/
theorem get_cards_bulk_order_witness :
    [docA, docB].Sublist
      (["a", "missing", "b"].filterMap (sampleMango.buscar_por_id "yugioh")) := by
  obtain ⟨c, hc, hsub⟩ :=
    get_cards_bulk_order sampleMango "yugioh" ["a", "missing", "b"]
      { count := 2, data := [docA, docB] } (by decide)
  have hcy : c = "yugioh" := by
    have h0 : GAME_CONFIG_collection "yugioh" = some "yugioh" := rfl
    rw [h0] at hc
    exact (Option.some.inj hc).symm
  rw [hcy] at hsub
  exact hsub

/-- C10: a generic internal-game listing with `limit = 0` is not rejected as
a 400 BadRequest: it reaches the pagination assembler and dies on the
unguarded `total / limit` division, so the division-by-zero branch is
reachable from the public interface. -/
theorem get_cards_limit_zero_division (key : String)
    (upstream : String → Params → Except String String)
    (mtg : Int → Int → Except String String) (m : Mango)
    (filter_fn : String → Params → Pred) (g : String) (params : Params)
    (page : Int) (hg : has_game_mahou g = true) (hm : g ≠ "magic") :
    get_cards key upstream mtg m filter_fn g params 0 page
      = .error .zeroDivisionError := by
  have hc := GAME_CONFIG_collection_eq g hg hm
  have hh := mahou_imp_has_game g hg
  simp [get_cards, hh, hg, hm, hc, paginated_response, math_ceil_div, Except.map]

/-- C10 witness: `GET /api/sorcery/cards?limit=0` dies on the division. -/
theorem get_cards_limit_zero_division_witness :
    get_cards "k" upstream0 mtg0 mango0 filter0 "sorcery" [] 0 1
      = .error .zeroDivisionError :=
  get_cards_limit_zero_division "k" upstream0 mtg0 mango0 filter0 "sorcery" [] 1
    (by decide) (by decide)

end HomuraCards
